import Mathlib

/-!
Verification of `crates/update-bindings/mapi-scrubbed/testbuild.cpp`: a C++
translation unit whose only content is six `static_assert` lines comparing
named MAPI constants (pulled in from `MAPIConstants.h`) against expected
literal values.  We embed each constant by its 32-bit representation (a `Nat`
reduced modulo `2^32`), model C-style casts to a signed 32-bit integer
explicitly, and model the translation unit as a boolean check that is `true`
exactly when all six compile-time assertions would hold.
-/

/-- value of a 32-bit representation when read as a signed (two's-complement)
32-bit integer, as C's `(HRESULT)` / `static_cast<std::int32_t>` casts do. -/
def toInt32 (n : Nat) : Int :=
  if n % 2^32 < 2^31 then ((n % 2^32 : Nat) : Int)
  else ((n % 2^32 : Nat) : Int) - 2^32

/-- names of the six constants that `testbuild.cpp` checks, one per
`static_assert` line (lines 8-13 of the file). -/
inductive ConstName where
  | mapi_e_not_found
  | pt_mv_binary
  | pr_conversation_topic_a
  | bookmark_beginning
  | table_sort_categ_max
  | prio_nonurgent
  deriving DecidableEq, BEq, Repr

/-- environment provided by the header `MAPIConstants.h`: the 32-bit
representation of each named constant the test file reads.  The test file is
compiled against an arbitrary such environment; the build succeeds exactly
when `testbuild` returns `true` on it. -/
structure MAPIConstants where
  MAPI_E_NOT_FOUND : Nat
  PT_MV_BINARY : Nat
  PR_CONVERSATION_TOPIC_A : Nat
  BOOKMARK_BEGINNING : Nat
  TABLE_SORT_CATEG_MAX : Nat
  PRIO_NONURGENT : Nat

/-- one `static_assert(C == V)` line of `testbuild.cpp`: the name of the
constant `C` it checks, the left-hand side as evaluated from the header
environment (after the casts written in the source), and the expected
right-hand-side value `V` (after the casts written in the source). -/
structure Assertion where
  name : ConstName
  lhs : MAPIConstants → Int
  rhs : Int

/-- the six `static_assert` lines of `testbuild.cpp`, in source order:
`MAPI_E_NOT_FOUND == ((HRESULT)0x8004010F)`,
`PT_MV_BINARY == 0x1102`,
`PR_CONVERSATION_TOPIC_A == (0x0070001E)`,
`BOOKMARK_BEGINNING == 0`,
`TABLE_SORT_CATEG_MAX == 4`,
`static_cast<std::int32_t>(PRIO_NONURGENT) == -1`.
Unsigned comparisons take the 32-bit representation; the `HRESULT` and
`std::int32_t` casts read the representation as a signed 32-bit value. -/
def staticAsserts : List Assertion :=
  [ ⟨ConstName.mapi_e_not_found,
      fun c => toInt32 c.MAPI_E_NOT_FOUND, toInt32 0x8004010F⟩,
    ⟨ConstName.pt_mv_binary,
      fun c => (c.PT_MV_BINARY % 2^32 : Nat), 0x1102⟩,
    ⟨ConstName.pr_conversation_topic_a,
      fun c => (c.PR_CONVERSATION_TOPIC_A % 2^32 : Nat), 0x0070001E⟩,
    ⟨ConstName.bookmark_beginning,
      fun c => (c.BOOKMARK_BEGINNING % 2^32 : Nat), 0⟩,
    ⟨ConstName.table_sort_categ_max,
      fun c => (c.TABLE_SORT_CATEG_MAX % 2^32 : Nat), 4⟩,
    ⟨ConstName.prio_nonurgent,
      fun c => toInt32 c.PRIO_NONURGENT, -1⟩ ]

/-- evaluation of one `static_assert` line against a header environment. -/
def staticAssertHolds (c : MAPIConstants) (a : Assertion) : Bool :=
  a.lhs c == a.rhs

/-- the whole translation unit: compilation of `testbuild.cpp` against a
header environment `c` succeeds exactly when this returns `true`.  The file
has no other content, so there is no runtime behavior at all. -/
def testbuild (c : MAPIConstants) : Bool :=
  staticAsserts.all (staticAssertHolds c)

/-- expected right-hand-side value `V` of the `static_assert` line that
checks the named constant, read off the assertion list. -/
def expectedRhs (n : ConstName) : Int :=
  (((staticAsserts.find? (fun a => a.name == n)).map Assertion.rhs).getD 0)

/-- 32-bit representation of an expected value (the inverse of reading a
representation as a signed 32-bit integer). -/
def toRep32 (i : Int) : Nat := (i % 2^32).toNat

/-- Modelled from the spec: the header `MAPIConstants.h` is not part of the
sources, only the test file that includes it is.  The spec fixes the checked
values: "an error code equal to a specific negative 32-bit status value, a
property-type tag, two property-tag identifiers, a bookmark enumeration value
of zero, a table-sort category maximum of four, and a priority enumeration
value of negative one cast to a signed 32-bit integer", each matching its
expected literal in the test file.  Fields are 32-bit representations. -/
def headerConstants : MAPIConstants :=
  { MAPI_E_NOT_FOUND := 0x8004010F
    PT_MV_BINARY := 0x1102
    PR_CONVERSATION_TOPIC_A := 0x0070001E
    BOOKMARK_BEGINNING := 0
    TABLE_SORT_CATEG_MAX := 4
    PRIO_NONURGENT := 0xFFFFFFFF }

/-- kinds of constants checked by the file, as the spec's traceability list
names them. -/
inductive ConstCategory where
  | errorCode
  | propTypeTag
  | propTagId
  | bookmarkEnum
  | tableSortMax
  | priorityEnum
  deriving DecidableEq, BEq, Repr

/-- classification of each checked constant, following the MAPI naming
convention the spec's glossary describes: `MAPI_E_*` is an error code
(HRESULT), `PT_*` is a property-type tag, `PR_*` is a property-tag
identifier, `BOOKMARK_*` is a bookmark enumeration value,
`TABLE_SORT_CATEG_MAX` is the table-sort category maximum, and `PRIO_*` is a
priority enumeration value. -/
def category : ConstName → ConstCategory
  | ConstName.mapi_e_not_found => ConstCategory.errorCode
  | ConstName.pt_mv_binary => ConstCategory.propTypeTag
  | ConstName.pr_conversation_topic_a => ConstCategory.propTagId
  | ConstName.bookmark_beginning => ConstCategory.bookmarkEnum
  | ConstName.table_sort_categ_max => ConstCategory.tableSortMax
  | ConstName.prio_nonurgent => ConstCategory.priorityEnum

/-- number of checked constants falling in a given category. -/
def categoryCount (k : ConstCategory) : Nat :=
  (staticAsserts.filter (fun a => category a.name == k)).length

theorem testbuild_header_passes : testbuild headerConstants = true := by
  decide

theorem toInt32_eq_toInt32_iff (m n : Nat) :
    toInt32 m = toInt32 n ↔ m % 2^32 = n % 2^32 := by
  unfold toInt32
  split <;> split <;> omega

theorem toInt32_eq_neg_one_iff (n : Nat) :
    toInt32 n = -1 ↔ n % 2^32 = 0xFFFFFFFF := by
  unfold toInt32
  split <;> omega

/-- C1: compilation of `testbuild.cpp` succeeds if and only if each of the six
named constants, reduced to its 32-bit representation, equals the expected
literal value written in its `static_assert`; if any one differs the check
fails.  `testbuild` is a total boolean function of the header environment: the
file has no runtime content, hence no runtime error path. -/
theorem testbuild_succeeds_iff (c : MAPIConstants) :
    testbuild c = true ↔
      (c.MAPI_E_NOT_FOUND % 2^32 = 0x8004010F ∧
       c.PT_MV_BINARY % 2^32 = 0x1102 ∧
       c.PR_CONVERSATION_TOPIC_A % 2^32 = 0x0070001E ∧
       c.BOOKMARK_BEGINNING % 2^32 = 0 ∧
       c.TABLE_SORT_CATEG_MAX % 2^32 = 4 ∧
       c.PRIO_NONURGENT % 2^32 = 0xFFFFFFFF) := by
  simp only [testbuild, staticAsserts, staticAssertHolds, List.all_cons,
    List.all_nil, Bool.and_true, Bool.and_eq_true, beq_iff_eq]
  rw [toInt32_eq_toInt32_iff, toInt32_eq_neg_one_iff]
  omega

/-- C2 counterexample: the spec's traceability list says two property-tag
identifiers are checked, but exactly one assertion of `testbuild.cpp`
(`PR_CONVERSATION_TOPIC_A`, line 10) checks a property-tag identifier. -/
theorem checked_propTagId_count_not_two :
    ¬ categoryCount ConstCategory.propTagId = 2 := by
  decide

/-- C2 (amended): the set of constants checked by the file consists of exactly
one error code (a negative 32-bit status value), one property-type tag, one
property-tag identifier, one bookmark enumeration value of zero, one
table-sort category maximum of four, and one priority enumeration value of
negative one cast to a signed 32-bit integer. -/
theorem checked_constant_kinds :
    categoryCount ConstCategory.errorCode = 1 ∧
    categoryCount ConstCategory.propTypeTag = 1 ∧
    categoryCount ConstCategory.propTagId = 1 ∧
    categoryCount ConstCategory.bookmarkEnum = 1 ∧
    categoryCount ConstCategory.tableSortMax = 1 ∧
    categoryCount ConstCategory.priorityEnum = 1 ∧
    expectedRhs ConstName.mapi_e_not_found = toInt32 0x8004010F ∧
    toInt32 0x8004010F < 0 ∧
    expectedRhs ConstName.bookmark_beginning = 0 ∧
    expectedRhs ConstName.table_sort_categ_max = 4 ∧
    expectedRhs ConstName.prio_nonurgent = -1 := by
  decide

/-- C3: the file contains exactly six assertions, each comparing one named
constant against an expected value (this is the shape of `Assertion`), in the
order the six constants appear in the source; the whole check (the complete
content of the artifact) succeeds exactly when every one of those six
comparisons holds. -/
theorem testbuild_is_six_static_asserts :
    staticAsserts.length = 6 ∧
    staticAsserts.map Assertion.name =
      [ConstName.mapi_e_not_found, ConstName.pt_mv_binary,
       ConstName.pr_conversation_topic_a, ConstName.bookmark_beginning,
       ConstName.table_sort_categ_max, ConstName.prio_nonurgent] ∧
    (∀ c, testbuild c = true ↔ ∀ a ∈ staticAsserts, a.lhs c = a.rhs) := by
  refine ⟨rfl, rfl, fun c => ?_⟩
  simp [testbuild, staticAssertHolds, List.all_eq_true]

/-- C4: the checked error code `MAPI_E_NOT_FOUND` equals the 32-bit status
value `0x8004010F`, which read as a signed 32-bit integer (`HRESULT`) is the
negative number `-2147221233`. -/
theorem mapi_e_not_found_value :
    headerConstants.MAPI_E_NOT_FOUND = 0x8004010F ∧
    toInt32 headerConstants.MAPI_E_NOT_FOUND = -2147221233 ∧
    toInt32 headerConstants.MAPI_E_NOT_FOUND < 0 := by
  decide

/-- C5: the checked priority enumeration value `PRIO_NONURGENT`, cast to a
signed 32-bit integer, equals `-1`. -/
theorem prio_nonurgent_value :
    toInt32 headerConstants.PRIO_NONURGENT = -1 ∧
    expectedRhs ConstName.prio_nonurgent = -1 := by
  decide

/-- C6: the checked bookmark enumeration constant `BOOKMARK_BEGINNING` equals
`0`, as does the expected value in its assertion. -/
theorem bookmark_beginning_value :
    headerConstants.BOOKMARK_BEGINNING = 0 ∧
    expectedRhs ConstName.bookmark_beginning = 0 := by
  decide

/-- C7: the checked table-sort category maximum constant
`TABLE_SORT_CATEG_MAX` equals `4`, as does the expected value in its
assertion. -/
theorem table_sort_categ_max_value :
    headerConstants.TABLE_SORT_CATEG_MAX = 4 ∧
    expectedRhs ConstName.table_sort_categ_max = 4 := by
  decide

/-- C8: the property-type tag checked is `PT_MV_BINARY` with expected value
`0x1102` (decimal `4354`), in which the multi-valued flag bit `0x1000` is set
(`0x1102 AND 0x1000 = 0x1000`). -/
theorem pt_mv_binary_value :
    expectedRhs ConstName.pt_mv_binary = 0x1102 ∧
    headerConstants.PT_MV_BINARY = 0x1102 ∧
    (0x1102 : Nat) = 4354 ∧
    (0x1102 : Nat) &&& 0x1000 = 0x1000 := by
  decide

/-- C9: the property-tag identifier checked is `PR_CONVERSATION_TOPIC_A` with
expected value `0x0070001E`, whose low 16 bits (the encoded property type)
are `0x001E` and whose high 16 bits (the encoded property identifier) are
`0x0070`. -/
theorem pr_conversation_topic_a_value :
    expectedRhs ConstName.pr_conversation_topic_a = 0x0070001E ∧
    headerConstants.PR_CONVERSATION_TOPIC_A = 0x0070001E ∧
    (0x0070001E : Nat) % 2^16 = 0x001E ∧
    (0x0070001E : Nat) / 2^16 = 0x0070 := by
  decide

/-- C10: the expected error-code value `0x8004010F`, taken modulo `2^32`,
has bit 31 (the HRESULT failure severity bit) set, has facility field
(bits 16-26) equal to `0x0004`, and has low 16 bits equal to `0x010F`. -/
theorem mapi_e_not_found_hresult_fields :
    toRep32 (expectedRhs ConstName.mapi_e_not_found) = 0x8004010F % 2^32 ∧
    Nat.testBit (0x8004010F % 2^32) 31 = true ∧
    ((0x8004010F % 2^32) / 2^16) % 2^11 = 0x0004 ∧
    (0x8004010F % 2^32) % 2^16 = 0x010F := by
  decide
